import Mathlib

/-!
# Verification of the astro-tokenkit token lifecycle engine

A shallow embedding of the core of `astro-tokenkit` (the token manager, the
single-flight coordinator, the refresh policy, the response-field detector and
the cookie-backed token store), together with theorems settling the frozen
claims about it.

Conventions of the embedding:
* JSON values are the inductive `JsonVal`; a response body is an association
  list `List (String × JsonVal)` (a key is "present" when it occurs in the
  list, mirroring the JavaScript `body[key] !== undefined` check).
* JavaScript numbers are modelled by `JSNum`, an integer or `nan` (the value a
  failed `parseInt` produces).  JavaScript truthiness is made explicit by the
  `truthy` functions.
* The per-request cookie store is an association list `CookieJar`; only the
  name/value pairs are modelled (maxAge, path and the security attributes of
  `getCookieOptions` carry no information the claims touch).
* The wall clock (`Math.floor(Date.now() / 1000)`) is an explicit `now : Int`
  parameter threaded through the calls of one operation.
* The HTTP transport is the `FetchResult` inductive: either a status with a
  parsed JSON body, or a transport failure.
* The advisory JWT payload decoder `parseJWTPayload` is display-only (per the
  spec it must never gate authentication logic), so the manager operations
  take it as an opaque parameter `parseJWT`.
-/

deriving instance DecidableEq for Except

/-- A parsed JSON value, as manipulated by the field detector. -/
inductive JsonVal where
  | jstr : String → JsonVal
  | jnum : Int → JsonVal
  | jbool : Bool → JsonVal
  | jnull : JsonVal
  | jobj : List (String × JsonVal) → JsonVal

/-- A JavaScript number as this code produces them: an integer, or the `nan`
that a failed `parseInt` yields. -/
inductive JSNum where
  | nan : JSNum
  | int : Int → JSNum
deriving DecidableEq, Repr

/-- JavaScript `+` on numbers: `nan` is absorbing. -/
def jsAdd : JSNum → JSNum → JSNum
  | JSNum.int a, JSNum.int b => JSNum.int (a + b)
  | _, _ => JSNum.nan

/-- JavaScript truthiness of a JSON value: `""`, `0`, `false` and `null` are
falsy; every object is truthy. -/
def truthy : JsonVal → Bool
  | JsonVal.jstr s => s ≠ ""
  | JsonVal.jnum n => n ≠ 0
  | JsonVal.jbool b => b
  | JsonVal.jnull => false
  | JsonVal.jobj _ => true

/-- JavaScript truthiness of a number. -/
def jsNumTruthy : JSNum → Bool
  | JSNum.nan => false
  | JSNum.int n => n ≠ 0

/-- Association-list lookup: the value under the first matching key. -/
def alistGet {α : Type} : List (String × α) → String → Option α
  | [], _ => none
  | (k, v) :: rest, key => if k = key then some v else alistGet rest key

/-- Association-list update: replace the first matching entry, else append. -/
def alistSet {α : Type} : List (String × α) → String → α → List (String × α)
  | [], key, value => [(key, value)]
  | (k, v) :: rest, key, value =>
    if k = key then (key, value) :: rest else (k, v) :: alistSet rest key value

/-- Association-list deletion of a key (removes every entry under it). -/
def alistDelete {α : Type} : List (String × α) → String → List (String × α)
  | [], _ => []
  | (k, v) :: rest, key =>
    if k = key then alistDelete rest key else (k, v) :: alistDelete rest key

/-- The longest all-digit prefix of a character list, as `parseInt` reads it. -/
def digitsPrefix : List Char → List Char
  | [] => []
  | c :: rest => if c.isDigit then c :: digitsPrefix rest else []

/-- Decimal value of a digit list. -/
def digitsToNat : List Char → Nat
  | [] => 0
  | c :: rest => (c.toNat - '0'.toNat) * 10 ^ rest.length + digitsToNat rest

/-- `parseInt(s, 10)`: an optional sign and leading decimal digits; `nan` when
no digit is found.  Trailing non-digit characters are ignored, as in JS. -/
def parseIntJS (s : String) : JSNum :=
  match s.data with
  | '-' :: rest =>
    match digitsPrefix rest with
    | [] => JSNum.nan
    | ds => JSNum.int (-(digitsToNat ds : Int))
  | cs =>
    match digitsPrefix cs with
    | [] => JSNum.nan
    | ds => JSNum.int (digitsToNat ds)

/-- `String(v)` for the values the store receives. -/
def jsToString : JsonVal → String
  | JsonVal.jstr s => s
  | JsonVal.jnum n => toString n
  | JsonVal.jbool b => if b then "true" else "false"
  | JsonVal.jnull => "null"
  | JsonVal.jobj _ => "[object Object]"

/-- `String(n)` for a JavaScript number. -/
def jsNumToString : JSNum → String
  | JSNum.nan => "NaN"
  | JSNum.int n => toString n

/-! ## Field detector (src/auth/detector.ts) -/

/-- Common field names for access tokens. -/
def ACCESS_TOKEN_FIELDS : List String :=
  ["access_token", "accessToken", "token", "jwt", "id_token", "idToken"]

/-- Common field names for refresh tokens. -/
def REFRESH_TOKEN_FIELDS : List String :=
  ["refresh_token", "refreshToken", "refresh"]

/-- Common field names for the absolute expiration timestamp. -/
def EXPIRES_AT_FIELDS : List String :=
  ["expires_at", "expiresAt", "exp", "expiry"]

/-- Common field names for a relative expires-in (seconds). -/
def EXPIRES_IN_FIELDS : List String :=
  ["expires_in", "expiresIn", "ttl"]

/-- Common field names for the session payload. -/
def SESSION_PAYLOAD_FIELDS : List String :=
  ["user", "profile", "account", "data"]

/-- Caller-supplied field-name mapping (types.ts `FieldMapping`).  The
`tokenType` member is declared in the interface but, as the theorems below
record, never read by `autoDetectFields`. -/
structure FieldMapping where
  accessToken : Option String := none
  refreshToken : Option String := none
  expiresAt : Option String := none
  expiresIn : Option String := none
  tokenType : Option String := none
  sessionPayload : Option String := none

/-- First body entry among the candidate names. -/
def findFirst (body : List (String × JsonVal)) : List String → Option JsonVal
  | [] => none
  | c :: rest =>
    match alistGet body c with
    | some v => some v
    | none => findFirst body rest

/-- The detector's `findField` helper: the mapping name is probed first (when
the mapping is a truthy string and the key is present), then the ordered
candidate list. -/
def findField (body : List (String × JsonVal)) (candidates : List String)
    (mapping : Option String) : Option JsonVal :=
  match mapping with
  | some m =>
    if m = "" then findFirst body candidates
    else
      match alistGet body m with
      | some v => some v
      | none => findFirst body candidates
  | none => findFirst body candidates

/-- The token bundle the detector builds.  The object literal it returns has
no `tokenType` key, so that member is always `none` here; token values are
kept as raw JSON values, as the untyped JavaScript does. -/
structure TokenBundle where
  accessToken : JsonVal
  refreshToken : JsonVal
  accessExpiresAt : JSNum
  tokenType : Option JsonVal := none
  sessionPayload : Option JsonVal := none

/-- Coercion of a detected expiry value to a number: a number stays itself,
a string goes through `parseInt`, anything else is `nan`. -/
def toJSNum : JsonVal → JSNum
  | JsonVal.jnum n => JSNum.int n
  | JsonVal.jstr s => parseIntJS s
  | _ => JSNum.nan

/-- Error message when no access token field is detected. -/
def accessTokenErrMsg : String :=
  "Could not detect access token field. Tried: " ++
  String.intercalate ", " ACCESS_TOKEN_FIELDS ++
  ". Provide custom parseLogin/parseRefresh or field mapping."

/-- Error message when no refresh token field is detected. -/
def refreshTokenErrMsg : String :=
  "Could not detect refresh token field. Tried: " ++
  String.intercalate ", " REFRESH_TOKEN_FIELDS ++
  ". Provide custom parseLogin/parseRefresh or field mapping."

/-- Error message when no expiration field is detected; it names every
attempted absolute and relative alias. -/
def expirationErrMsg : String :=
  "Could not detect expiration field. Tried: " ++
  String.intercalate ", " (EXPIRES_AT_FIELDS ++ EXPIRES_IN_FIELDS) ++
  ". Provide custom parseLogin/parseRefresh or field mapping."

/-- `autoDetectFields(body, fieldMapping)` of detector.ts.  `now` is the
wall-clock read `Math.floor(Date.now() / 1000)` used for a relative expiry.
A `!value` guard in the source rejects an absent field and a present-but-falsy
field alike. -/
def autoDetectFields (body : List (String × JsonVal))
    (fieldMapping : Option FieldMapping) (now : Int) :
    Except String TokenBundle :=
  match findField body ACCESS_TOKEN_FIELDS (fieldMapping.bind FieldMapping.accessToken) with
  | none => Except.error accessTokenErrMsg
  | some aTok =>
    if truthy aTok = false then Except.error accessTokenErrMsg
    else
      match findField body REFRESH_TOKEN_FIELDS (fieldMapping.bind FieldMapping.refreshToken) with
      | none => Except.error refreshTokenErrMsg
      | some rTok =>
        if truthy rTok = false then Except.error refreshTokenErrMsg
        else
          let accessExpiresAt : Option JSNum :=
            match findField body EXPIRES_AT_FIELDS (fieldMapping.bind FieldMapping.expiresAt) with
            | some v => some (toJSNum v)
            | none =>
              match findField body EXPIRES_IN_FIELDS (fieldMapping.bind FieldMapping.expiresIn) with
              | some v => some (jsAdd (JSNum.int now) (toJSNum v))
              | none => none
          match accessExpiresAt with
          | none => Except.error expirationErrMsg
          | some e =>
            let sessionPayload :=
              match findField body SESSION_PAYLOAD_FIELDS (fieldMapping.bind FieldMapping.sessionPayload) with
              | some v => if truthy v then some v else none
              | none => none
            Except.ok { accessToken := aTok, refreshToken := rTok,
                        accessExpiresAt := e, sessionPayload := sessionPayload }

/-! ## Time utilities (src/utils/time.ts) -/

/-- A value a policy field can take: a number or a duration string. -/
inductive TimeInput where
  | num : Int → TimeInput
  | str : String → TimeInput

/-- JavaScript truthiness of a policy field value. -/
def timeTruthy : TimeInput → Bool
  | TimeInput.num n => n ≠ 0
  | TimeInput.str s => s ≠ ""

/-- Seconds multiplier of a time unit character. -/
def timeUnitMult : Char → Option Nat
  | 's' => some 1
  | 'm' => some 60
  | 'h' => some 3600
  | 'd' => some 86400
  | _ => none

/-- The regular expression of parseTime: a string matches iff it is one or
more digits followed by exactly one of `s`, `m`, `h`, `d`; on a match the
digit value and the unit character are extracted. -/
def matchTimeString (s : String) : Option (Nat × Char) :=
  match s.data.reverse with
  | [] => none
  | u :: revDigits =>
    let ds := revDigits.reverse
    if ds ≠ [] ∧ ds.all Char.isDigit ∧ (timeUnitMult u).isSome then
      some (digitsToNat ds, u)
    else none

/-- `parseTime` of utils/time.ts: a number passes through; a string must
match the duration pattern and is converted to seconds. -/
def parseTime : TimeInput → Except String Int
  | TimeInput.num n => Except.ok n
  | TimeInput.str s =>
    match matchTimeString s with
    | none =>
      Except.error ("Invalid time format: " ++ s ++
        ". Use format like '5m', '30s', '1h', '2d'")
    | some (v, u) => Except.ok ((v * (timeUnitMult u).getD 0 : Nat) : Int)

/-! ## Refresh policy (src/auth/policy.ts) -/

/-- `RefreshPolicy` of types.ts: each field optional, a seconds count or a
duration string. -/
structure RefreshPolicy where
  refreshBefore : Option TimeInput := none
  clockSkew : Option TimeInput := none
  minInterval : Option TimeInput := none

/-- A policy after `normalizePolicy`: all fields are numbers. -/
structure NormalizedPolicy where
  refreshBefore : Int
  clockSkew : Int
  minInterval : Int
deriving DecidableEq, Repr

/-- One field of `normalizePolicy`: `policy.f ? parseTime(policy.f) : DEFAULT`
— an absent or falsy field (including an explicit `0`) takes the default. -/
def normalizeField (v : Option TimeInput) (dflt : Int) : Except String Int :=
  match v with
  | none => Except.ok dflt
  | some t => if timeTruthy t then parseTime t else Except.ok dflt

/-- `normalizePolicy` of policy.ts with the defaults
`refreshBefore = 300`, `clockSkew = 60`, `minInterval = 30`. -/
def normalizePolicy (policy : RefreshPolicy) : Except String NormalizedPolicy := do
  let rb ← normalizeField policy.refreshBefore 300
  let cs ← normalizeField policy.clockSkew 60
  let mi ← normalizeField policy.minInterval 30
  Except.ok { refreshBefore := rb, clockSkew := cs, minInterval := mi }

/-- `shouldRefresh` of policy.ts.  The source re-checks `typeof` on the
already-normalized fields; those branches are identities and not repeated
here.  An invalid duration string surfaces as the error of `parseTime`. -/
def shouldRefresh (expiresAt now : Int) (lastRefreshAt : Option Int)
    (policy : RefreshPolicy) : Except String Bool := do
  let n ← normalizePolicy policy
  let adjustedNow := now + n.clockSkew
  let timeUntilExpiry := expiresAt - adjustedNow
  if timeUntilExpiry > n.refreshBefore then
    Except.ok false
  else
    match lastRefreshAt with
    | some l =>
      if now - l < n.minInterval then Except.ok false else Except.ok true
    | none => Except.ok true

/-- `isExpired` of policy.ts: pessimistic, true iff `now + clockSkew`
is past the expiry. -/
def isExpired (expiresAt now : Int) (policy : RefreshPolicy) :
    Except String Bool := do
  let n ← normalizePolicy policy
  Except.ok (decide (now + n.clockSkew > expiresAt))

/-! ## Token store (src/auth/storage.ts) -/

/-- The per-request cookie store: name/value pairs. -/
abbrev CookieJar := List (String × String)

/-- The four cookie names. -/
structure CookieNames where
  accessToken : String
  refreshToken : String
  expiresAt : String
  lastRefreshAt : String

/-- `getCookieNames`: the four names under an optional (truthy) name
pfx (the `cookies.prefix` configuration). -/
def getCookieNames (pfx : Option String) : CookieNames :=
  let p := match pfx with
    | some s => if s = "" then "" else s ++ "_"
    | none => ""
  { accessToken := p ++ "access_token",
    refreshToken := p ++ "refresh_token",
    expiresAt := p ++ "access_expires_at",
    lastRefreshAt := p ++ "last_refresh_at" }

/-- `storeTokens`: writes the four values.  Cookie attributes (maxAge, path,
security options) carry no claim-relevant information and are not part of the
jar model; the stored values themselves are exact. -/
def storeTokens (jar : CookieJar) (bundle : TokenBundle) (pfx : Option String)
    (now : Int) : CookieJar :=
  let names := getCookieNames pfx
  let jar1 := alistSet jar names.accessToken (jsToString bundle.accessToken)
  let jar2 := alistSet jar1 names.refreshToken (jsToString bundle.refreshToken)
  let jar3 := alistSet jar2 names.expiresAt (jsNumToString bundle.accessExpiresAt)
  alistSet jar3 names.lastRefreshAt (toString now)

/-- The record `retrieveTokens` returns.  `none` stands for the JS `null`;
the `?.value || null` of the source also turns an empty cookie into `null`,
and a `NaN` from `parseInt` is collapsed to `none` as well (every consumer
guards with JS truthiness, under which `null` and `NaN` behave alike). -/
structure StoredTokens where
  accessToken : Option String
  refreshToken : Option String
  expiresAt : Option Int
  lastRefreshAt : Option Int
deriving DecidableEq, Repr

/-- Read one cookie as `ctx.cookies.get(name)?.value || null`. -/
def readCookie (jar : CookieJar) (name : String) : Option String :=
  match alistGet jar name with
  | some v => if v = "" then none else some v
  | none => none

/-- Read one cookie and `parseInt` it, `null` when absent or empty, `none`
also for a `NaN` parse (see `StoredTokens`). -/
def readCookieInt (jar : CookieJar) (name : String) : Option Int :=
  match readCookie jar name with
  | some s =>
    match parseIntJS s with
    | JSNum.int n => some n
    | JSNum.nan => none
  | none => none

/-- `retrieveTokens` of storage.ts. -/
def retrieveTokens (jar : CookieJar) (pfx : Option String) : StoredTokens :=
  let names := getCookieNames pfx
  { accessToken := readCookie jar names.accessToken,
    refreshToken := readCookie jar names.refreshToken,
    expiresAt := readCookieInt jar names.expiresAt,
    lastRefreshAt := readCookieInt jar names.lastRefreshAt }

/-- `clearTokens` of storage.ts: deletes the four cookies. -/
def clearTokens (jar : CookieJar) (pfx : Option String) : CookieJar :=
  let names := getCookieNames pfx
  let jar1 := alistDelete jar names.accessToken
  let jar2 := alistDelete jar1 names.refreshToken
  let jar3 := alistDelete jar2 names.expiresAt
  alistDelete jar3 names.lastRefreshAt

/-! ## Token manager (src/auth/manager.ts) -/

/-- `AuthError` of types.ts, reduced to the members the claims inspect:
the message and the HTTP status it carries (the raw response, request and
cause are diagnostics only). -/
structure AuthError where
  message : String
  status : Option Int := none
deriving DecidableEq, Repr

/-- The transport outcome of one POST issued by the manager: an HTTP status
with the parsed JSON body (`response.json().catch(() => ({}))` gives an empty
object on a body-parse failure), or a raw transport failure. -/
inductive FetchResult where
  | success : Int → List (String × JsonVal) → FetchResult
  | failure : String → FetchResult

/-- `response.ok` of fetch: status in the inclusive range 200–299. -/
def responseOk (status : Int) : Bool :=
  200 ≤ status ∧ status < 300

/-- The slice of `AuthConfig` the embedded operations consult. -/
structure AuthConfig where
  fields : Option FieldMapping := none
  parseLogin : Option (List (String × JsonVal) → Except String TokenBundle) := none
  parseRefresh : Option (List (String × JsonVal) → Except String TokenBundle) := none
  pfx : Option String := none
  policy : RefreshPolicy := {}
  login : String := ""

/-- `performRefresh` (manager.ts lines 150–222), as a function of the
transport outcome: 401/403 clear the tokens and yield `null`; any other
non-2xx status is an `AuthError` carrying it; a 2xx body is parsed by the
configured `parseRefresh` or the field detector, validated (all three
mandatory members truthy) and only then stored. -/
def performRefresh (resp : FetchResult) (jar : CookieJar) (cfg : AuthConfig)
    (now : Int) : Except AuthError (Option TokenBundle) × CookieJar :=
  match resp with
  | FetchResult.failure msg =>
    (Except.error { message := "Refresh request failed: " ++ msg }, jar)
  | FetchResult.success status body =>
    if responseOk status = false then
      if status = 401 ∨ status = 403 then
        (Except.ok none, clearTokens jar cfg.pfx)
      else
        (Except.error { message := "Refresh failed: " ++ toString status,
                        status := some status }, jar)
    else
      let parsed := match cfg.parseRefresh with
        | some p => p body
        | none => autoDetectFields body cfg.fields now
      match parsed with
      | Except.error m =>
        (Except.error { message := "Invalid refresh response: " ++ m,
                        status := some status }, jar)
      | Except.ok bundle =>
        if truthy bundle.accessToken = false ∨ truthy bundle.refreshToken = false ∨
            jsNumTruthy bundle.accessExpiresAt = false then
          (Except.error
            { message := "Invalid token bundle returned from refresh endpoint",
              status := some status }, jar)
        else
          (Except.ok (some bundle), storeTokens jar bundle cfg.pfx now)

/-- `refresh` (manager.ts lines 138–145): wraps `performRefresh` and clears
all persisted tokens before re-throwing any error. -/
def refresh (resp : FetchResult) (jar : CookieJar) (cfg : AuthConfig)
    (now : Int) : Except AuthError (Option TokenBundle) × CookieJar :=
  match performRefresh resp jar cfg now with
  | (Except.ok v, j) => (Except.ok v, j)
  | (Except.error e, j) => (Except.error e, clearTokens j cfg.pfx)

/-- `login` (manager.ts lines 54–133), as a function of the transport
outcome.  A non-2xx status or a parse failure is an `AuthError`; a parsed
bundle is stored with no further validation.  The `onLogin`/`onError` hooks
and the request-building are outside the persisted-state model. -/
def login (resp : FetchResult) (jar : CookieJar) (cfg : AuthConfig)
    (now : Int) : Except AuthError TokenBundle × CookieJar :=
  match resp with
  | FetchResult.failure msg =>
    (Except.error { message := "Login request failed: " ++ msg }, jar)
  | FetchResult.success status body =>
    if responseOk status = false then
      (Except.error { message := "Login failed: " ++ toString status,
                      status := some status }, jar)
    else
      let parsed := match cfg.parseLogin with
        | some p => p body
        | none => autoDetectFields body cfg.fields now
      match parsed with
      | Except.error m =>
        (Except.error { message := "Invalid login response: " ++ m,
                        status := some status }, jar)
      | Except.ok bundle =>
        (Except.ok bundle, storeTokens jar bundle cfg.pfx now)

/-- `Session` of types.ts.  The access token stays a raw JSON value (the
untyped refresh body supplies it on the refresh path) and the expiry a
JavaScript number. -/
structure Session where
  accessToken : JsonVal
  expiresAt : JSNum
  tokenType : Option JsonVal := none
  payload : Option JsonVal := none

/-- An error escaping `ensure`: an `AuthError` from the refresh path, or a
plain `Error` (an invalid-duration policy) from the policy evaluation. -/
inductive JSError where
  | auth : AuthError → JSError
  | plain : String → JSError
deriving DecidableEq, Repr

/-- The session built from a fresh bundle (manager.ts lines 248–253 and
267–272): payload is the bundle's `sessionPayload`, else the advisory JWT
decode of the access token. -/
def sessionOfBundle (parseJWT : JsonVal → Option JsonVal) (bundle : TokenBundle) :
    Session :=
  { accessToken := bundle.accessToken,
    expiresAt := bundle.accessExpiresAt,
    tokenType := bundle.tokenType,
    payload := match bundle.sessionPayload with
      | some p => some p
      | none => parseJWT bundle.accessToken }

/-- The session built from the stored record (manager.ts lines 283–288).
`retrieveTokens` has no `tokenType` member, so `tokens.tokenType ?? undefined`
is always `undefined`. -/
def sessionOfStored (parseJWT : JsonVal → Option JsonVal) (a : String) (e : Int) :
    Session :=
  { accessToken := JsonVal.jstr a,
    expiresAt := JSNum.int e,
    tokenType := none,
    payload := parseJWT (JsonVal.jstr a) }

/-- `ensure` (manager.ts lines 227–289) for one caller.  `resp` is the
transport outcome the refresh call would observe; the third component counts
refresh network calls.  With a single caller the single-flight `execute`
on an idle key reduces to running its operation (the single-flight state
machine itself is `SFState` below). -/
def ensure (jar : CookieJar) (now : Int) (cfg : AuthConfig) (resp : FetchResult)
    (force : Bool) (parseJWT : JsonVal → Option JsonVal) :
    Except JSError (Option Session) × CookieJar × Nat :=
  let tokens := retrieveTokens jar cfg.pfx
  match tokens.accessToken, tokens.refreshToken, tokens.expiresAt with
  | some a, some _, some e =>
    if e = 0 then (Except.ok none, jar, 0)
    else
      match isExpired e now cfg.policy with
      | Except.error m => (Except.error (JSError.plain m), jar, 0)
      | Except.ok expired =>
        if force ∨ expired then
          match refresh resp jar cfg now with
          | (Except.error err, j) => (Except.error (JSError.auth err), j, 1)
          | (Except.ok none, j) => (Except.ok none, j, 1)
          | (Except.ok (some bundle), j) =>
            (Except.ok (some (sessionOfBundle parseJWT bundle)),
             storeTokens j bundle cfg.pfx now, 1)
        else
          match shouldRefresh e now tokens.lastRefreshAt cfg.policy with
          | Except.error m => (Except.error (JSError.plain m), jar, 0)
          | Except.ok true =>
            match refresh resp jar cfg now with
            | (Except.error err, j) => (Except.error (JSError.auth err), j, 1)
            | (Except.ok (some bundle), j) =>
              (Except.ok (some (sessionOfBundle parseJWT bundle)),
               storeTokens j bundle cfg.pfx now, 1)
            | (Except.ok none, j) =>
              let current := retrieveTokens j cfg.pfx
              if current.accessToken.isNone then (Except.ok none, j, 1)
              else (Except.ok (some (sessionOfStored parseJWT a e)), j, 1)
          | Except.ok false =>
            (Except.ok (some (sessionOfStored parseJWT a e)), jar, 0)
  | _, _, _ => (Except.ok none, jar, 0)

/-- `getSession` (manager.ts lines 330–343): pure read, needs only the access
token and a truthy expiry. -/
def getSession (jar : CookieJar) (cfg : AuthConfig)
    (parseJWT : JsonVal → Option JsonVal) : Option Session :=
  let tokens := retrieveTokens jar cfg.pfx
  match tokens.accessToken, tokens.expiresAt with
  | some a, some e =>
    if e = 0 then none else some (sessionOfStored parseJWT a e)
  | _, _ => none

/-- `isAuthenticated` (manager.ts lines 348–351): both token values present. -/
def isAuthenticated (jar : CookieJar) (cfg : AuthConfig) : Bool :=
  let tokens := retrieveTokens jar cfg.pfx
  tokens.accessToken.isSome ∧ tokens.refreshToken.isSome

/-- `createFlightKey` (manager.ts lines 356–359). -/
def createFlightKey (token : String) : String :=
  "refresh_" ++ token

/-! ## Single-flight coordinator (manager.ts lines 14–35)

Under the event-loop's cooperative scheduling, each `execute` call runs
atomically up to storing the pending promise, and the `finally` eviction runs
when the promise settles.  `SFState` captures the coordinator's observable
state: the in-flight map (keys to promise identities), a supply of fresh
promise identities, and a count of operation invocations. -/

/-- State of the single-flight coordinator. -/
structure SFState where
  inFlight : List (String × Nat) := []
  nextId : Nat := 0
  started : Nat := 0
deriving DecidableEq, Repr

/-- One `execute(key, fn)` call: joins the in-flight promise when the key is
present, else invokes `fn` (a fresh promise identity, one more start) and
records it under the key. -/
def SFState.run (s : SFState) (key : String) : SFState × Nat :=
  match alistGet s.inFlight key with
  | some id => (s, id)
  | none =>
    ({ inFlight := (key, s.nextId) :: s.inFlight,
       nextId := s.nextId + 1,
       started := s.started + 1 }, s.nextId)

/-- Settlement of the promise under `key` (the `finally` of `execute`):
the key is evicted from the in-flight map. -/
def SFState.settle (s : SFState) (key : String) : SFState :=
  { s with inFlight := alistDelete s.inFlight key }

/-- `n` callers of `execute` on one key arriving before its promise settles
(cooperative scheduling: no eviction can interleave).  Returns the final
state and each caller's promise identity, in arrival order. -/
def SFState.runMany : Nat → SFState → String → SFState × List Nat
  | 0, s, _ => (s, [])
  | n + 1, s, key =>
    let (s1, id) := s.run key
    let (s2, ids) := SFState.runMany n s1 key
    (s2, id :: ids)

/-! ## Configuration (src/validation.ts, src/config.ts) -/

/-- `startsWith('/')`: the first character is a slash. -/
def startsWithSlash (s : String) : Bool :=
  match s.data with
  | c :: _ => c = '/'
  | [] => false

/-- `isValidPattern` of validation.ts (the `typeof` check always holds in the
typed model). -/
def isValidPattern (pattern : String) : Bool :=
  startsWithSlash pattern ∧ pattern.length > 0 ∧ pattern.length < 1000

/-- `isValidRedirectPath` of validation.ts. -/
def isValidRedirectPath (path : String) : Bool :=
  startsWithSlash path ∧ path.length > 0 ∧ path.length < 500

/-- One route-protection rule of the global configuration. -/
structure ProtectionRule where
  pattern : String
  redirectTo : Option String := none

/-- The slice of `TokenKitConfig` that `setConfig` inspects.  The nested
`auth` configuration carries the refresh policy untouched. -/
structure TokenKitConfig where
  loginPath : Option String := none
  auth : Option AuthConfig := none
  protect : List ProtectionRule := []

/-- The protection-rule loop of `setConfig` (config.ts lines 45–63).  A falsy
`redirectTo` skips the redirect check (`rule.redirectTo && ...`). -/
def validateProtect : List ProtectionRule → Except String Unit
  | [] => Except.ok ()
  | rule :: rest =>
    if isValidPattern rule.pattern = false then
      Except.error ("[TokenKit] Invalid pattern: \"" ++ rule.pattern ++
        "\". Patterns must start with / and be less than 1000 characters.")
    else
      match rule.redirectTo with
      | some rt =>
        if rt ≠ "" ∧ isValidRedirectPath rt = false then
          Except.error ("[TokenKit] Invalid redirectTo: \"" ++ rt ++
            "\". Must start with / and be less than 500 characters.")
        else validateProtect rest
      | none => validateProtect rest

/-- `setConfig` (config.ts lines 35–85): validates the login path
(`userConfig.loginPath ?? (userConfig.auth?.login || config.loginPath)`) and
the protection rules, then stores the configuration and re-creates the token
manager.  No part of it evaluates the refresh policy or `parseTime`; the
result is the resolved login path. -/
def setConfig (userConfig : TokenKitConfig) (prevLoginPath : String) :
    Except String String :=
  let loginPath := match userConfig.loginPath with
    | some p => p
    | none =>
      match userConfig.auth with
      | some a => if a.login = "" then prevLoginPath else a.login
      | none => prevLoginPath
  if isValidRedirectPath loginPath = false then
    Except.error ("[TokenKit] Invalid loginPath: \"" ++ loginPath ++
      "\". Must start with / and be less than 500 characters.")
  else
    match validateProtect userConfig.protect with
    | Except.error e => Except.error e
    | Except.ok _ => Except.ok loginPath

/-! ## Supporting lemmas -/

theorem alistGet_alistDelete_self {α : Type} (l : List (String × α)) (k : String) :
    alistGet (alistDelete l k) k = none := by
  induction l with
  | nil => rfl
  | cons hd tl ih =>
    obtain ⟨k', v⟩ := hd
    by_cases h : k' = k
    · simp [alistDelete, h, ih]
    · simp [alistDelete, alistGet, h, ih]

theorem alistGet_none_alistDelete {α : Type} (l : List (String × α)) (k k' : String)
    (h : alistGet l k = none) : alistGet (alistDelete l k') k = none := by
  induction l with
  | nil => rfl
  | cons hd tl ih =>
    obtain ⟨k₀, v⟩ := hd
    by_cases hk : k₀ = k
    · simp [alistGet, hk] at h
    · simp [alistGet, hk] at h
      by_cases hk' : k₀ = k'
      · simp [alistDelete, hk', ih h]
      · simp [alistDelete, alistGet, hk, hk', ih h]

/-- After `clearTokens`, none of the four cookies reads back. -/
theorem clearTokens_reads_none (jar : CookieJar) (pfx : Option String) :
    readCookie (clearTokens jar pfx) (getCookieNames pfx).accessToken = none ∧
    readCookie (clearTokens jar pfx) (getCookieNames pfx).refreshToken = none ∧
    readCookie (clearTokens jar pfx) (getCookieNames pfx).expiresAt = none ∧
    readCookie (clearTokens jar pfx) (getCookieNames pfx).lastRefreshAt = none := by
  set na := (getCookieNames pfx).accessToken with hna
  set nr := (getCookieNames pfx).refreshToken with hnr
  set ne' := (getCookieNames pfx).expiresAt with hne
  set nl := (getCookieNames pfx).lastRefreshAt with hnl
  set j1 := alistDelete jar na with hj1
  set j2 := alistDelete j1 nr with hj2
  set j3 := alistDelete j2 ne' with hj3
  have ha : alistGet (alistDelete j3 nl) na = none :=
    alistGet_none_alistDelete j3 na nl
      (alistGet_none_alistDelete j2 na ne'
        (alistGet_none_alistDelete j1 na nr (alistGet_alistDelete_self jar na)))
  have hr : alistGet (alistDelete j3 nl) nr = none :=
    alistGet_none_alistDelete j3 nr nl
      (alistGet_none_alistDelete j2 nr ne' (alistGet_alistDelete_self j1 nr))
  have he : alistGet (alistDelete j3 nl) ne' = none :=
    alistGet_none_alistDelete j3 ne' nl (alistGet_alistDelete_self j2 ne')
  have hl : alistGet (alistDelete j3 nl) nl = none :=
    alistGet_alistDelete_self j3 nl
  refine ⟨?_, ?_, ?_, ?_⟩ <;>
    simp [clearTokens, readCookie, ← hna, ← hnr, ← hne, ← hnl, ← hj1, ← hj2, ← hj3,
      ha, hr, he, hl]

/-! ## C4 — detector mapping priority including tokenType -/

/-- The body of the C4 scenario. -/
def c4body : List (String × JsonVal) :=
  [("token", JsonVal.jstr "a"), ("refresh", JsonVal.jstr "b"),
   ("exp", JsonVal.jnum 5), ("type", JsonVal.jstr "JWT")]

/-- The mapping of the C4 scenario. -/
def c4mapping : FieldMapping :=
  { accessToken := some "token", refreshToken := some "refresh",
    expiresAt := some "exp", tokenType := some "type" }

/-- C4 (code_bug evidence): on the claim's body and mapping the detector does
map `accessToken`, `refreshToken` and `accessExpiresAt` through the mapping as
claimed, but returns a bundle whose `tokenType` is absent — `autoDetectFields`
never reads `FieldMapping.tokenType` — contradicting the claim and the
repository's own test (tests/field-mapping.test.ts expects `tokenType`
`"JWT"` here). -/
theorem c4_detector_drops_mapped_type :
    autoDetectFields c4body (some c4mapping) 0 =
      Except.ok { accessToken := JsonVal.jstr "a", refreshToken := JsonVal.jstr "b",
                  accessExpiresAt := JSNum.int 5, tokenType := none,
                  sessionPayload := none } := rfl

/-! ## C5 — proactive-refresh decision -/

/-- The C5 policy with the claim's `refreshBefore = 300`, `clockSkew = 60`
and the default `minInterval = 30`, all as numbers. -/
def c5policy : RefreshPolicy :=
  { refreshBefore := some (TimeInput.num 300),
    clockSkew := some (TimeInput.num 60),
    minInterval := some (TimeInput.num 30) }

/-- C5 (counterexample): the claim quantifies over every policy, but a policy
field equal to `0` is falsy, so `normalizePolicy` substitutes its default
(300/60/30).  With `refreshBefore = 0`, `clockSkew = 0`, `expiresAt = 100`,
`now = 0` the claim's formula gives `100 - (0 + 0) > 0`, hence "false", while
`shouldRefresh` (running on the defaults) returns true. -/
theorem c5_zero_policy_counterexample :
    shouldRefresh 100 0 none
      { refreshBefore := some (TimeInput.num 0),
        clockSkew := some (TimeInput.num 0),
        minInterval := some (TimeInput.num 0) } = Except.ok true ∧
    (100 : Int) - (0 + 0) > 0 := by
  exact ⟨rfl, by norm_num⟩

/-- C5 (amended): for positive numeric policy fields — where normalization is
the identity — `shouldRefresh` is false iff not yet within the proactive
window, else false iff rate-limited by `minInterval`, else true; and with
`refreshBefore = 300`, `clockSkew = 60` and no previous refresh, a token
expiring 361 seconds after `now` is not due while one expiring 359 seconds
after `now` is. -/
theorem c5_shouldRefresh_decision (e n : Int) (l : Option Int) (rb cs mi : Int)
    (hrb : 0 < rb) (hcs : 0 < cs) (hmi : 0 < mi) :
    (shouldRefresh e n l
      { refreshBefore := some (TimeInput.num rb),
        clockSkew := some (TimeInput.num cs),
        minInterval := some (TimeInput.num mi) } =
      Except.ok (if e - (n + cs) > rb then false
                 else if l.elim false (fun lr => n - lr < mi) then false
                 else true)) ∧
    (∀ now : Int, shouldRefresh (now + 361) now none c5policy = Except.ok false) ∧
    (∀ now : Int, shouldRefresh (now + 359) now none c5policy = Except.ok true) := by
  refine ⟨?_, ?_, ?_⟩
  · have h1 : normalizeField (some (TimeInput.num rb)) 300 = Except.ok rb := by
      simp [normalizeField, timeTruthy, parseTime, show rb ≠ 0 by omega]
    have h2 : normalizeField (some (TimeInput.num cs)) 60 = Except.ok cs := by
      simp [normalizeField, timeTruthy, parseTime, show cs ≠ 0 by omega]
    have h3 : normalizeField (some (TimeInput.num mi)) 30 = Except.ok mi := by
      simp [normalizeField, timeTruthy, parseTime, show mi ≠ 0 by omega]
    simp only [shouldRefresh, normalizePolicy, h1, h2, h3, bind, Except.bind]
    by_cases h : e - (n + cs) > rb
    · simp [h]
    · cases l with
      | none => simp [h]
      | some lr => by_cases hmi2 : n - lr < mi <;> simp [h, hmi2]
  · intro now
    simp only [shouldRefresh, c5policy, normalizePolicy, normalizeField, timeTruthy,
      parseTime, bind, Except.bind]
    norm_num
  · intro now
    simp only [shouldRefresh, c5policy, normalizePolicy, normalizeField, timeTruthy,
      parseTime, bind, Except.bind]
    norm_num

/-- Witness for C5's amended theorem at a concrete input. -/
theorem c5_shouldRefresh_decision_witness :
    shouldRefresh 1000 0 none
      { refreshBefore := some (TimeInput.num 300),
        clockSkew := some (TimeInput.num 60),
        minInterval := some (TimeInput.num 30) } = Except.ok false := by
  have h := (c5_shouldRefresh_decision 1000 0 none 300 60 30
    (by norm_num) (by norm_num) (by norm_num)).1
  simpa using h

/-! ## C8 — policy time-string parsing -/

theorem matchTimeString_append (ds : List Char) (u : Char) (hds : ds ≠ [])
    (hdig : ds.all Char.isDigit = true) (hu : (timeUnitMult u).isSome) :
    matchTimeString (String.mk (ds ++ [u])) = some (digitsToNat ds, u) := by
  simp [matchTimeString, List.reverse_append, hds, hdig, hu]

/-- The C8 policy holding an invalid duration string. -/
def c8badPolicy : RefreshPolicy :=
  { refreshBefore := some (TimeInput.str "oops") }

/-- The C8 configuration carrying that policy. -/
def c8badConfig : TokenKitConfig :=
  { auth := some { login := "/login", policy := c8badPolicy } }

/-- C8 (counterexample): a policy field holding the invalid duration string
"oops" passes `setConfig` without any error — configuration raises nothing —
and the invalid-format error is raised only when the policy is first
evaluated, here by `shouldRefresh` at request time. -/
theorem c8_config_defers_time_error :
    setConfig c8badConfig "/login" = Except.ok "/login" ∧
    shouldRefresh 0 0 none c8badPolicy =
      Except.error "Invalid time format: oops. Use format like '5m', '30s', '1h', '2d'" :=
  ⟨by decide, by decide⟩

/-- C8 (amended): a string of digits followed by exactly one of `s`, `m`,
`h`, `d` converts to seconds with multipliers 1, 60, 3600, 86400, and every
other string is rejected with the invalid-format error; but that error is
raised at the first policy evaluation (request time), not at configuration
time: `setConfig` accepts a configuration whose policy holds an invalid time
string, and the same policy makes `shouldRefresh` fail. -/
theorem c8_parseTime_spec :
    (∀ ds : List Char, ds ≠ [] → ds.all Char.isDigit = true →
      parseTime (TimeInput.str (String.mk (ds ++ ['s']))) =
        Except.ok ((digitsToNat ds : Int)) ∧
      parseTime (TimeInput.str (String.mk (ds ++ ['m']))) =
        Except.ok ((digitsToNat ds : Int) * 60) ∧
      parseTime (TimeInput.str (String.mk (ds ++ ['h']))) =
        Except.ok ((digitsToNat ds : Int) * 3600) ∧
      parseTime (TimeInput.str (String.mk (ds ++ ['d']))) =
        Except.ok ((digitsToNat ds : Int) * 86400)) ∧
    (∀ s : String, matchTimeString s = none →
      parseTime (TimeInput.str s) =
        Except.error ("Invalid time format: " ++ s ++
          ". Use format like '5m', '30s', '1h', '2d'")) ∧
    setConfig c8badConfig "/login" = Except.ok "/login" ∧
    shouldRefresh 0 0 none c8badPolicy =
      Except.error "Invalid time format: oops. Use format like '5m', '30s', '1h', '2d'" := by
  refine ⟨?_, ?_, by decide, by decide⟩
  · intro ds hds hdig
    have hs := matchTimeString_append ds 's' hds hdig (by rfl)
    have hm := matchTimeString_append ds 'm' hds hdig (by rfl)
    have hh := matchTimeString_append ds 'h' hds hdig (by rfl)
    have hd := matchTimeString_append ds 'd' hds hdig (by rfl)
    refine ⟨?_, ?_, ?_, ?_⟩
    · simp [parseTime, hs, timeUnitMult]
    · simp [parseTime, hm, timeUnitMult]
    · simp [parseTime, hh, timeUnitMult]
    · simp [parseTime, hd, timeUnitMult]
  · intro s hs
    simp [parseTime, hs]

/-- Witness for C8's amended theorem: "45m" parses to 45 * 60 seconds and
"oops" is rejected. -/
theorem c8_parseTime_spec_witness :
    parseTime (TimeInput.str (String.mk (['4', '5'] ++ ['m']))) =
      Except.ok ((digitsToNat ['4', '5'] : Int) * 60) ∧
    parseTime (TimeInput.str "oops") =
      Except.error ("Invalid time format: " ++ "oops" ++
        ". Use format like '5m', '30s', '1h', '2d'") :=
  ⟨(c8_parseTime_spec.1 ['4', '5'] (by decide) (by decide)).2.1,
   c8_parseTime_spec.2.1 "oops" (by decide)⟩

/-! ## C2 — refresh error semantics -/

/-- C2: a 401 or 403 from the refresh endpoint makes `refresh` return `null`
with the four persisted values deleted; any other non-2xx status makes it
surface an `AuthError` carrying that status, with the four values likewise
cleared before the error propagates. -/
theorem c2_refresh_error_semantics (status : Int) (body : List (String × JsonVal))
    (jar : CookieJar) (cfg : AuthConfig) (now : Int) :
    ((status = 401 ∨ status = 403) →
      refresh (FetchResult.success status body) jar cfg now =
        (Except.ok none, clearTokens jar cfg.pfx)) ∧
    (responseOk status = false → status ≠ 401 → status ≠ 403 →
      refresh (FetchResult.success status body) jar cfg now =
        (Except.error { message := "Refresh failed: " ++ toString status,
                        status := some status }, clearTokens jar cfg.pfx)) ∧
    readCookie (clearTokens jar cfg.pfx) (getCookieNames cfg.pfx).accessToken = none ∧
    readCookie (clearTokens jar cfg.pfx) (getCookieNames cfg.pfx).refreshToken = none ∧
    readCookie (clearTokens jar cfg.pfx) (getCookieNames cfg.pfx).expiresAt = none ∧
    readCookie (clearTokens jar cfg.pfx) (getCookieNames cfg.pfx).lastRefreshAt = none := by
  obtain ⟨ha, hr, he, hl⟩ := clearTokens_reads_none jar cfg.pfx
  refine ⟨?_, ?_, ha, hr, he, hl⟩
  · rintro (h | h) <;> subst h <;> rfl
  · intro hok h1 h2
    simp [refresh, performRefresh, hok, h1, h2]

/-- Witness for C2 at status 401 and status 500. -/
theorem c2_refresh_error_semantics_witness :
    refresh (FetchResult.success 401 []) [("access_token", "A")] {} 0 =
      (Except.ok none, clearTokens [("access_token", "A")] none) ∧
    refresh (FetchResult.success 500 []) [("access_token", "A")] {} 0 =
      (Except.error { message := "Refresh failed: " ++ toString (500 : Int),
                      status := some 500 }, clearTokens [("access_token", "A")] none) :=
  ⟨(c2_refresh_error_semantics 401 [] [("access_token", "A")] {} 0).1 (Or.inl rfl),
   (c2_refresh_error_semantics 500 [] [("access_token", "A")] {} 0).2.1
     (by decide) (by decide) (by decide)⟩

/-! ## C3 — persisted-bundle validity invariant -/

/-- An invalid bundle: present but empty access token. -/
def c3badBundle : TokenBundle :=
  { accessToken := JsonVal.jstr "", refreshToken := JsonVal.jstr "r",
    accessExpiresAt := JSNum.int 123 }

/-- A configuration whose custom login parser returns that invalid bundle. -/
def c3cfg : AuthConfig :=
  { parseLogin := some (fun _ => Except.ok c3badBundle) }

/-- C3 (counterexample): `login` performs no bundle validation — with a
custom `parseLogin` returning a bundle whose access token is the empty
string (falsy, hence invalid by the code's own refresh-side check), `login`
succeeds and `storeTokens` persists the partial bundle. -/
theorem c3_login_persists_invalid_bundle :
    login (FetchResult.success 200 []) [] c3cfg 5 =
      (Except.ok c3badBundle,
       [("access_token", ""), ("refresh_token", "r"),
        ("access_expires_at", "123"), ("last_refresh_at", "5")]) ∧
    truthy c3badBundle.accessToken = false :=
  ⟨rfl, rfl⟩

/-- C3 (amended): the rejection-before-persist invariant holds on the refresh
path only — whichever parser produced it, a bundle with a falsy accessToken,
refreshToken or accessExpiresAt makes `performRefresh` raise the
invalid-bundle `AuthError` with the jar untouched (`storeTokens` is never
reached), and the `refresh` wrapper surfaces that error after clearing the
tokens; `login` persists the parsed bundle without this validation. -/
theorem c3_refresh_rejects_invalid_bundle (status : Int)
    (body : List (String × JsonVal)) (jar : CookieJar) (cfg : AuthConfig)
    (now : Int) (bundle : TokenBundle)
    (hok : responseOk status = true)
    (hparse : (match cfg.parseRefresh with
               | some p => p body
               | none => autoDetectFields body cfg.fields now) = Except.ok bundle)
    (hinv : truthy bundle.accessToken = false ∨ truthy bundle.refreshToken = false ∨
            jsNumTruthy bundle.accessExpiresAt = false) :
    performRefresh (FetchResult.success status body) jar cfg now =
      (Except.error { message := "Invalid token bundle returned from refresh endpoint",
                      status := some status }, jar) ∧
    refresh (FetchResult.success status body) jar cfg now =
      (Except.error { message := "Invalid token bundle returned from refresh endpoint",
                      status := some status }, clearTokens jar cfg.pfx) := by
  have hp : performRefresh (FetchResult.success status body) jar cfg now =
      (Except.error { message := "Invalid token bundle returned from refresh endpoint",
                      status := some status }, jar) := by
    rcases hinv with h | h | h <;> simp [performRefresh, hok, hparse, h]
  exact ⟨hp, by simp [refresh, hp]⟩

/-- A configuration whose custom refresh parser returns the invalid bundle. -/
def c3refreshCfg : AuthConfig :=
  { parseRefresh := some (fun _ => Except.ok c3badBundle) }

/-- Witness for C3's amended theorem at a concrete invalid bundle. -/
theorem c3_refresh_rejects_invalid_bundle_witness :
    performRefresh (FetchResult.success 200 []) [("k", "v")] c3refreshCfg 0 =
      (Except.error { message := "Invalid token bundle returned from refresh endpoint",
                      status := some 200 }, [("k", "v")]) ∧
    refresh (FetchResult.success 200 []) [("k", "v")] c3refreshCfg 0 =
      (Except.error { message := "Invalid token bundle returned from refresh endpoint",
                      status := some 200 }, clearTokens [("k", "v")] c3refreshCfg.pfx) :=
  c3_refresh_rejects_invalid_bundle 200 [] [("k", "v")] c3refreshCfg 0 c3badBundle
    (by decide) rfl (Or.inl (by decide))

/-! ## C10 — present-but-falsy values are treated as absent -/

/-- C10: a selected access-token (or refresh-token) field holding a falsy
value makes the detector raise the could-not-detect error, and
`performRefresh` rejects a parsed bundle with a falsy member (zero expiry,
empty token string) without persisting it. -/
theorem c10_falsy_is_absent (body : List (String × JsonVal))
    (fm : Option FieldMapping) (now : Int) :
    (∀ v, findField body ACCESS_TOKEN_FIELDS (fm.bind FieldMapping.accessToken) = some v →
      truthy v = false → autoDetectFields body fm now = Except.error accessTokenErrMsg) ∧
    (∀ a v, findField body ACCESS_TOKEN_FIELDS (fm.bind FieldMapping.accessToken) = some a →
      truthy a = true →
      findField body REFRESH_TOKEN_FIELDS (fm.bind FieldMapping.refreshToken) = some v →
      truthy v = false → autoDetectFields body fm now = Except.error refreshTokenErrMsg) ∧
    (∀ (status : Int) (jar : CookieJar) (cfg : AuthConfig)
      (p : List (String × JsonVal) → Except String TokenBundle) (bundle : TokenBundle),
      responseOk status = true → cfg.parseRefresh = some p → p body = Except.ok bundle →
      (truthy bundle.accessToken = false ∨ truthy bundle.refreshToken = false ∨
       jsNumTruthy bundle.accessExpiresAt = false) →
      performRefresh (FetchResult.success status body) jar cfg now =
        (Except.error { message := "Invalid token bundle returned from refresh endpoint",
                        status := some status }, jar)) := by
  refine ⟨?_, ?_, ?_⟩
  · intro v hv ht
    simp [autoDetectFields, hv, ht]
  · intro a v ha hat hv ht
    simp [autoDetectFields, ha, hat, hv, ht]
  · intro status jar cfg p bundle hok hp hpb hinv
    rcases hinv with h | h | h <;> simp [performRefresh, hok, hp, hpb, h]

/-- A bundle with a zero expiry, as a custom refresh parser could return. -/
def c10bundle : TokenBundle :=
  { accessToken := JsonVal.jstr "A", refreshToken := JsonVal.jstr "R",
    accessExpiresAt := JSNum.int 0 }

/-- A configuration whose custom refresh parser returns that bundle. -/
def c10cfg : AuthConfig :=
  { parseRefresh := some (fun _ => Except.ok c10bundle) }

/-- Witness for C10: an empty access-token string, a refresh-token value 0,
and a bundle with accessExpiresAt 0. -/
theorem c10_falsy_is_absent_witness :
    autoDetectFields [("access_token", JsonVal.jstr "")] none 0 =
      Except.error accessTokenErrMsg ∧
    autoDetectFields [("access_token", JsonVal.jstr "A"), ("refresh_token", JsonVal.jnum 0)]
      none 0 = Except.error refreshTokenErrMsg ∧
    performRefresh (FetchResult.success 200 []) [("k", "v")] c10cfg 0 =
      (Except.error { message := "Invalid token bundle returned from refresh endpoint",
                      status := some 200 }, [("k", "v")]) :=
  ⟨(c10_falsy_is_absent [("access_token", JsonVal.jstr "")] none 0).1
      (JsonVal.jstr "") rfl (by decide),
   (c10_falsy_is_absent [("access_token", JsonVal.jstr "A"), ("refresh_token", JsonVal.jnum 0)]
      none 0).2.1 (JsonVal.jstr "A") (JsonVal.jnum 0) rfl (by decide) rfl (by decide),
   (c10_falsy_is_absent [] none 0).2.2 200 [("k", "v")] c10cfg
      (fun _ => Except.ok c10bundle) c10bundle (by decide) rfl rfl
      (Or.inr (Or.inr (by decide)))⟩

/-! ## C6 — detector expiry resolution order -/

/-- C6: once both tokens are detected, the expiry is resolved by the absolute
field first (number or numeric string, via mapping or aliases), else by the
relative expires-in field added to the wall clock, else the detector fails
with an error naming all attempted aliases; a body with only
`expires_in: 1799` yields an expiry within `[now + 1799, now + 1801]`
(exactly `now + 1799` under a single clock read). -/
theorem c6_expiry_resolution (body : List (String × JsonVal))
    (fm : Option FieldMapping) (now : Int) (a r : JsonVal)
    (ha : findField body ACCESS_TOKEN_FIELDS (fm.bind FieldMapping.accessToken) = some a)
    (hat : truthy a = true)
    (hr : findField body REFRESH_TOKEN_FIELDS (fm.bind FieldMapping.refreshToken) = some r)
    (hrt : truthy r = true) :
    (∀ v, findField body EXPIRES_AT_FIELDS (fm.bind FieldMapping.expiresAt) = some v →
      ∃ b, autoDetectFields body fm now = Except.ok b ∧
        b.accessExpiresAt = toJSNum v ∧ b.accessToken = a ∧ b.refreshToken = r) ∧
    (∀ w, findField body EXPIRES_AT_FIELDS (fm.bind FieldMapping.expiresAt) = none →
      findField body EXPIRES_IN_FIELDS (fm.bind FieldMapping.expiresIn) = some w →
      ∃ b, autoDetectFields body fm now = Except.ok b ∧
        b.accessExpiresAt = jsAdd (JSNum.int now) (toJSNum w) ∧
        b.accessToken = a ∧ b.refreshToken = r) ∧
    (findField body EXPIRES_AT_FIELDS (fm.bind FieldMapping.expiresAt) = none →
      findField body EXPIRES_IN_FIELDS (fm.bind FieldMapping.expiresIn) = none →
      autoDetectFields body fm now = Except.error expirationErrMsg) ∧
    expirationErrMsg =
      "Could not detect expiration field. Tried: expires_at, expiresAt, exp, expiry, " ++
      "expires_in, expiresIn, ttl. Provide custom parseLogin/parseRefresh or field mapping." ∧
    (∀ t : Int, autoDetectFields
        [("access_token", JsonVal.jstr "A"), ("refresh_token", JsonVal.jstr "R"),
         ("expires_in", JsonVal.jnum 1799)] none t =
      Except.ok { accessToken := JsonVal.jstr "A", refreshToken := JsonVal.jstr "R",
                  accessExpiresAt := JSNum.int (t + 1799), tokenType := none,
                  sessionPayload := none } ∧
      t + 1799 ≤ t + 1799 ∧ t + 1799 ≤ t + 1801) := by
  refine ⟨?_, ?_, ?_, by rfl, ?_⟩
  · intro v hv
    simp only [autoDetectFields, ha, hat, hr, hrt, hv]
    exact ⟨_, rfl, rfl, rfl, rfl⟩
  · intro w hnone hw
    simp only [autoDetectFields, ha, hat, hr, hrt, hnone, hw]
    exact ⟨_, rfl, rfl, rfl, rfl⟩
  · intro hnone hnone2
    simp [autoDetectFields, ha, hat, hr, hrt, hnone, hnone2]
  · intro t
    exact ⟨rfl, by omega, by omega⟩

/-- Witness for C6: an absolute `expires_at: 999` body resolves to 999. -/
theorem c6_expiry_resolution_witness :
    ∃ b, autoDetectFields
        [("access_token", JsonVal.jstr "A"), ("refresh_token", JsonVal.jstr "R"),
         ("expires_at", JsonVal.jnum 999)] none 0 = Except.ok b ∧
      b.accessExpiresAt = toJSNum (JsonVal.jnum 999) ∧
      b.accessToken = JsonVal.jstr "A" ∧ b.refreshToken = JsonVal.jstr "R" :=
  (c6_expiry_resolution
    [("access_token", JsonVal.jstr "A"), ("refresh_token", JsonVal.jstr "R"),
     ("expires_at", JsonVal.jnum 999)] none 0 (JsonVal.jstr "A") (JsonVal.jstr "R")
    rfl (by decide) rfl (by decide)).1 (JsonVal.jnum 999) rfl

/-! ## C7 — idempotent no-op ensure -/

/-- C7: when the three stored values are present, the token is not expired
(`now + clockSkew <= expiresAt`) and the record is outside the proactive
window (`expiresAt - (now + clockSkew) > refreshBefore`), `ensure` makes zero
refresh calls, leaves the jar untouched and returns the session built from
the stored access token and expiry exactly. -/
theorem c7_ensure_valid_noop (jar : CookieJar) (now : Int) (cfg : AuthConfig)
    (resp : FetchResult) (parseJWT : JsonVal → Option JsonVal)
    (a r : String) (e rb cs mi : Int)
    (ha : (retrieveTokens jar cfg.pfx).accessToken = some a)
    (hr : (retrieveTokens jar cfg.pfx).refreshToken = some r)
    (he : (retrieveTokens jar cfg.pfx).expiresAt = some e)
    (he0 : e ≠ 0)
    (hnp : normalizePolicy cfg.policy =
      Except.ok { refreshBefore := rb, clockSkew := cs, minInterval := mi })
    (hexp : ¬ (now + cs > e))
    (hwin : e - (now + cs) > rb) :
    ensure jar now cfg resp false parseJWT =
      (Except.ok (some (sessionOfStored parseJWT a e)), jar, 0) := by
  have hie : isExpired e now cfg.policy = Except.ok false := by
    simp [isExpired, hnp, bind, Except.bind, hexp]
  have hsr : shouldRefresh e now (retrieveTokens jar cfg.pfx).lastRefreshAt cfg.policy =
      Except.ok false := by
    simp [shouldRefresh, hnp, bind, Except.bind, hwin]
  simp [ensure, ha, hr, he, he0, hie, hsr]

/-- Witness for C7 at a concrete valid, not-expiring-soon record. -/
theorem c7_ensure_valid_noop_witness :
    ensure [("access_token", "A"), ("refresh_token", "R"), ("access_expires_at", "10000")]
      5000 {} (FetchResult.failure "network down") false (fun _ => none) =
      (Except.ok (some (sessionOfStored (fun _ => none) "A" 10000)),
       [("access_token", "A"), ("refresh_token", "R"), ("access_expires_at", "10000")], 0) :=
  c7_ensure_valid_noop
    [("access_token", "A"), ("refresh_token", "R"), ("access_expires_at", "10000")]
    5000 {} (FetchResult.failure "network down") (fun _ => none)
    "A" "R" 10000 300 60 30 rfl rfl rfl (by decide) rfl (by decide) (by decide)

/-! ## C9 — getSession does not require a refresh token -/

/-- C9: with the access token and a truthy expiry stored but no refresh
token, `getSession` returns a session, `ensure` returns `null` (with no
network call and an untouched jar), and `isAuthenticated` is false. -/
theorem c9_getSession_without_refresh_token (jar : CookieJar) (cfg : AuthConfig)
    (parseJWT : JsonVal → Option JsonVal) (a : String) (e : Int)
    (ha : (retrieveTokens jar cfg.pfx).accessToken = some a)
    (he : (retrieveTokens jar cfg.pfx).expiresAt = some e)
    (he0 : e ≠ 0)
    (hr : (retrieveTokens jar cfg.pfx).refreshToken = none) :
    getSession jar cfg parseJWT = some (sessionOfStored parseJWT a e) ∧
    (∀ (now : Int) (resp : FetchResult) (force : Bool),
      ensure jar now cfg resp force parseJWT = (Except.ok none, jar, 0)) ∧
    isAuthenticated jar cfg = false := by
  refine ⟨?_, ?_, ?_⟩
  · simp [getSession, ha, he, he0]
  · intro now resp force
    simp [ensure, ha, hr, he]
  · simp [isAuthenticated, hr]

/-- Witness for C9 at a concrete store missing the refresh token. -/
theorem c9_getSession_without_refresh_token_witness :
    getSession [("access_token", "A"), ("access_expires_at", "99")] {} (fun _ => none) =
      some (sessionOfStored (fun _ => none) "A" 99) ∧
    ensure [("access_token", "A"), ("access_expires_at", "99")] 0 {}
      (FetchResult.failure "down") false (fun _ => none) =
      (Except.ok none, [("access_token", "A"), ("access_expires_at", "99")], 0) ∧
    isAuthenticated [("access_token", "A"), ("access_expires_at", "99")] {} = false := by
  have h := c9_getSession_without_refresh_token
    [("access_token", "A"), ("access_expires_at", "99")] {} (fun _ => none)
    "A" 99 rfl rfl (by decide) rfl
  exact ⟨h.1, h.2.1 0 (FetchResult.failure "down") false, h.2.2⟩

/-! ## C1 — single-flight collapse and eviction -/

/-- Every caller joining an in-flight key gets the existing promise and
changes nothing (in particular no new operation start). -/
theorem SFState.runMany_joined (n : Nat) (s : SFState) (key : String) (id : Nat)
    (h : alistGet s.inFlight key = some id) :
    SFState.runMany n s key = (s, List.replicate n id) := by
  induction n with
  | zero => simp [SFState.runMany]
  | succ m ih => simp [SFState.runMany, SFState.run, h, ih, List.replicate_succ]

/-- C1: joining callers receive the in-flight promise without a new
operation start; settlement evicts the key, after which a call starts a
fresh operation; and `n ≥ 1` callers arriving on an idle key (the flight key
of one shared refresh token) cause exactly one operation start and all
receive the same promise — hence the same eventual result. -/
theorem c1_single_flight_collapse (s : SFState) (token : String) :
    (∀ id, alistGet s.inFlight (createFlightKey token) = some id →
      s.run (createFlightKey token) = (s, id)) ∧
    alistGet (s.settle (createFlightKey token)).inFlight (createFlightKey token) = none ∧
    (∀ s' : SFState, alistGet s'.inFlight (createFlightKey token) = none →
      (s'.run (createFlightKey token)).1.started = s'.started + 1) ∧
    (∀ n : Nat, 1 ≤ n → alistGet s.inFlight (createFlightKey token) = none →
      (SFState.runMany n s (createFlightKey token)).1.started = s.started + 1 ∧
      ∃ id, (SFState.runMany n s (createFlightKey token)).2 = List.replicate n id) := by
  refine ⟨?_, ?_, ?_, ?_⟩
  · intro id h
    simp [SFState.run, h]
  · exact alistGet_alistDelete_self _ _
  · intro s' h
    simp [SFState.run, h]
  · intro n hn h
    obtain ⟨m, rfl⟩ : ∃ m, n = m + 1 := ⟨n - 1, by omega⟩
    have hstep : s.run (createFlightKey token) =
        ({ inFlight := (createFlightKey token, s.nextId) :: s.inFlight,
           nextId := s.nextId + 1, started := s.started + 1 }, s.nextId) := by
      simp [SFState.run, h]
    have hjoin : alistGet ((createFlightKey token, s.nextId) :: s.inFlight)
        (createFlightKey token) = some s.nextId := by
      simp [alistGet]
    have hmany := SFState.runMany_joined m
      { inFlight := (createFlightKey token, s.nextId) :: s.inFlight,
        nextId := s.nextId + 1, started := s.started + 1 }
      (createFlightKey token) s.nextId hjoin
    constructor
    · simp [SFState.runMany, hstep, hmany]
    · exact ⟨s.nextId, by
        simp [SFState.runMany, hstep, hmany, List.replicate_succ]⟩

/-- Witness for C1: three concurrent callers on an idle key start exactly one
operation and share one promise. -/
theorem c1_single_flight_collapse_witness :
    (SFState.runMany 3 {} (createFlightKey "RT")).1.started = SFState.started {} + 1 ∧
    ∃ id, (SFState.runMany 3 {} (createFlightKey "RT")).2 = List.replicate 3 id :=
  (c1_single_flight_collapse {} "RT").2.2.2 3 (by decide) rfl
